import Mathlib

/-
Shallow embedding of the recording-integrity subsystem of Meeting-Sense
(src/app.py): the FileIntegrityManager (verify_file_complete,
find_stable_recording_file, _file_changed, safe_move_file,
wait_for_recording_stop) and the EnhancedOBSController state machine
(connect, start_virtual_camera, ensure_virtual_camera_active,
start_recording preconditions, stop_recording, _find_latest_recording_safe,
_move_to_target_safe, disconnect).

Modelling conventions:
- The filesystem is an association list from path strings to abstract files
  carrying size (bytes), mtime (seconds), an abstract content identity, and
  a flag telling whether the first bytes carry the MP4 ftyp signature.
- Wall-clock time is an integer number of seconds; operations inside one
  call are modelled at a single instant, matching the sub-second scale of
  the filesystem steps relative to the multi-second verify thresholds.
- Out-of-process effects (the OBS RPC, shutil.copy2 faults, os.rename
  faults) are injected through explicit environment records, so theorems
  quantify over every fault pattern the Python code can observe.
-/

namespace MeetingSense

/-- Abstract file on disk: size in bytes, mtime in epoch seconds, an
abstract content identity (two files are byte-identical iff data fields
are equal), and whether bytes 4..8 spell the MP4 ftyp signature. -/
structure File where
  size : Nat
  mtime : Int
  data : Nat
  ftyp : Bool
deriving DecidableEq

/-- Filesystem: association list path to file (first entry wins). -/
abbrev FS := List (String × File)

/-- Path lookup in the modelled filesystem. -/
def lookupFile : FS → String → Option File
  | [], _ => none
  | (q, f) :: rest, p => if q = p then some f else lookupFile rest p

/-- Delete every entry at a path (models os.remove). -/
def removeFile : FS → String → FS
  | [], _ => []
  | (q, f) :: rest, p =>
      if q = p then removeFile rest p else (q, f) :: removeFile rest p

/-- Create or overwrite the file at a path (models a write or a rename
target). -/
def setFile (fs : FS) (p : String) (f : File) : FS :=
  (p, f) :: removeFile fs p

/-- Model of FileIntegrityManager.verify_file_complete (app.py lines
149-196). Checks, in order: existence; size at least min_size_kb KiB;
mtime at least 3 seconds in the past; the first 100 bytes readable.
The MP4 ftyp signature check in the source only logs a warning and never
affects the returned value, so the ftyp field is deliberately not
consulted. Permission and OS errors of the open call are not modelled. -/
def verify_file_complete (fs : FS) (now : Int) (path : String)
    (min_size_kb : Nat) : Bool × String :=
  match lookupFile fs path with
  | none => (false, "File does not exist: " ++ path)
  | some f =>
    if f.size < min_size_kb * 1024 then
      (false, "File too small")
    else if now - f.mtime < 3 then
      (false, "File modified recently (may still be writing)")
    else if f.size < 100 then
      (false, "File header incomplete")
    else
      (true, "")

/-- One directory-scan observation: path, mtime, size (models the glob
plus getmtime and getsize calls of one stabilization pass). -/
structure ScanEntry where
  path : String
  mtime : Int
  size : Nat
deriving DecidableEq

/-- Model of FileIntegrityManager._file_changed (app.py lines 248-254):
the re-queried size against the previously recorded one; a stat failure
counts as changed. Changed means the absolute difference exceeds 1024
bytes. -/
def file_changed (currentSize : Option Nat) (previousSize : Nat) : Bool :=
  match currentSize with
  | none => true
  | some c => ((c : Int) - (previousSize : Int)).natAbs > 1024

/-- Files considered in a pass: mtime after recording start minus the 10
second buffer (app.py line 217). -/
def candidateFilter (snap : List ScanEntry) (startTime : Int) :
    List ScanEntry :=
  snap.filter (fun e => decide (e.mtime > startTime - 10))

/-- One non-initial stabilization pass (app.py lines 225-235): for each
currently seen candidate, a file already tracked is dropped when its size
changed beyond the threshold, while a file not tracked is appended as new.
Files tracked but no longer seen are kept untouched, as in the source.
The re-stat inside _file_changed is modelled as returning the size
observed by the same pass. -/
def stablePass (stable : List ScanEntry) (cur : List ScanEntry) :
    List ScanEntry :=
  cur.foldl
    (fun st e =>
      match st.find? (fun s => s.path == e.path) with
      | some s0 =>
          if file_changed (some e.size) s0.size then
            st.filter (fun s => s.path != e.path)
          else st
      | none => st ++ [e])
    stable

/-- First entry with the strictly greatest mtime (models Python max with
a key function over dict insertion order, app.py lines 241-244). -/
def latestStable (stable : List ScanEntry) : Option String :=
  match stable with
  | [] => none
  | e :: rest =>
      some (rest.foldl (fun best x => if x.mtime > best.mtime then x else best) e).path

/-- Model of FileIntegrityManager.find_stable_recording_file (app.py
lines 198-246): pass 0 collects the candidates, passes 1 and 2 apply the
demote-or-append update, then the most recently modified tracked file is
returned. The snapshots s0 s1 s2 are what the three glob scans observe,
2 seconds apart. -/
def find_stable_recording_file (s0 s1 s2 : List ScanEntry)
    (startTime : Int) : Option String :=
  let st0 := candidateFilter s0 startTime
  let st1 := stablePass st0 (candidateFilter s1 startTime)
  let st2 := stablePass st1 (candidateFilter s2 startTime)
  latestStable st2

/-- Fallback scan of _find_latest_recording_safe (app.py lines 1227-1245):
keep the file with the strictly greatest mtime among files with mtime
after start minus 5, starting from a zero sentinel. -/
def fallbackLatest (snap : List ScanEntry) (startTime : Int) :
    Option String :=
  (snap.foldl
    (fun acc e =>
      if e.mtime > startTime - 5 ∧ e.mtime > acc.2 then (some e.path, e.mtime)
      else acc)
    ((none : Option String), (0 : Int))).1

/-- Observable outcome of shutil.copy2 in safe_move_file: it can raise,
return without producing the temp file, or produce some file (a faithful
copy preserves size, mtime and data; a faulty disk may produce anything). -/
inductive CopyOutcome
  | exc
  | silent
  | creates (f : File)
deriving DecidableEq

/-- Fault environment for one safe_move_file call. -/
structure MoveEnv where
  copy : CopyOutcome
  renameExc : Bool
  removeSourceExc : Bool
deriving DecidableEq

/-- Which return of safe_move_file was taken; projected to the Python
pair by moveResultPair. -/
inductive MoveOutcome
  | ok (finalPath : String)
  | srcMissing
  | srcInvalid (e : String)
  | copyExc
  | copySilent
  | sizeMismatch (s c : Nat)
  | renameExc
  | finalInvalid (e : String)
deriving DecidableEq

/-- The (bool, message-or-path) pair safe_move_file actually returns. -/
def moveResultPair : MoveOutcome → Bool × String
  | .ok p => (true, p)
  | .srcMissing => (false, "Source file not found")
  | .srcInvalid e => (false, "Source file invalid: " ++ e)
  | .copyExc => (false, "copy exception")
  | .copySilent => (false, "Copy failed - temp file not created")
  | .sizeMismatch s c =>
      (false, "Copy size mismatch: " ++ toString s ++ " != " ++ toString c)
  | .renameExc => (false, "rename exception")
  | .finalInvalid e => (false, "Final file invalid: " ++ e)

/-- Tests the MoveOutcome constructor. -/
def MoveOutcome.isOk : MoveOutcome → Bool
  | .ok _ => true
  | _ => false

/-- Tests for the final-verification failure return. -/
def MoveOutcome.isFinalInvalid : MoveOutcome → Bool
  | .finalInvalid _ => true
  | _ => false

/-- Tests for the copy-size-mismatch failure return. -/
def MoveOutcome.isSizeMismatch : MoveOutcome → Bool
  | .sizeMismatch _ _ => true
  | _ => false

/-- Model of FileIntegrityManager.safe_move_file (app.py lines 256-325).
Steps: source existence; verify source; copy to target plus ".moving";
existence and size check of the copy; if the target already exists, move
it aside to target plus ".backup." plus the timestamp; rename the temp
copy into place; verify the final file, restoring the backup on failure;
delete the source (a failed delete is swallowed). The except handler of
the source removes the temp file and nothing else. -/
def safe_move_file (env : MoveEnv) (fs : FS) (now : Int)
    (source target : String) : MoveOutcome × FS :=
  match lookupFile fs source with
  | none => (.srcMissing, fs)
  | some src =>
    if (verify_file_complete fs now source 100).1 = false then
      (.srcInvalid (verify_file_complete fs now source 100).2, fs)
    else
      match env.copy with
      | .exc => (.copyExc, removeFile fs (target ++ ".moving"))
      | .silent => (.copySilent, fs)
      | .creates c =>
        let fs1 := setFile fs (target ++ ".moving") c
        if src.size ≠ c.size then
          (.sizeMismatch src.size c.size, removeFile fs1 (target ++ ".moving"))
        else
          match lookupFile fs1 target with
          | some oldF =>
            let fs2 := setFile (removeFile fs1 target)
                (target ++ ".backup." ++ toString now) oldF
            if env.renameExc then
              (.renameExc, removeFile fs2 (target ++ ".moving"))
            else
              let fs3 := setFile (removeFile fs2 (target ++ ".moving")) target c
              if (verify_file_complete fs3 now target 100).1 = false then
                match lookupFile fs3 (target ++ ".backup." ++ toString now) with
                | some bf =>
                  (.finalInvalid (verify_file_complete fs3 now target 100).2,
                   setFile (removeFile fs3 (target ++ ".backup." ++ toString now))
                     target bf)
                | none =>
                  (.finalInvalid (verify_file_complete fs3 now target 100).2, fs3)
              else
                (.ok target,
                 if env.removeSourceExc then fs3 else removeFile fs3 source)
          | none =>
            if env.renameExc then
              (.renameExc, removeFile fs1 (target ++ ".moving"))
            else
              let fs3 := setFile (removeFile fs1 (target ++ ".moving")) target c
              if (verify_file_complete fs3 now target 100).1 = false then
                (.finalInvalid (verify_file_complete fs3 now target 100).2, fs3)
              else
                (.ok target,
                 if env.removeSourceExc then fs3 else removeFile fs3 source)

/-- Recorder lifecycle states (app.py lines 344-353). -/
inductive RecorderState
  | disconnected
  | connecting
  | connected
  | virtual_cam_starting
  | virtual_cam_active
  | recording
  | stopping
  | error
deriving DecidableEq

/-- A caller-requested save location (app.py set_recording_target):
folder, filename split as base and extension; full_path joins them. -/
structure RecordingTarget where
  folder : String
  base : String
  ext : String
deriving DecidableEq

/-- The full path the caller asked the recording to end at. -/
def RecordingTarget.fullPath (t : RecordingTarget) : String :=
  t.folder ++ "/" ++ t.base ++ t.ext

/-- The alternative path _move_to_target_safe switches to when the target
already exists (app.py lines 1263-1268): the filename base suffixed with
a timestamp. The strftime rendering is abstracted to the integer clock. -/
def conflictPath (t : RecordingTarget) (now : Int) : String :=
  t.folder ++ "/" ++ t.base ++ "_" ++ toString now ++ t.ext

/-- Mutable controller fields touched by the modelled operations. -/
structure ControllerSt where
  state : RecorderState
  recordingTarget : Option RecordingTarget
  lastRecordingPath : Option String
  recordingStartTime : Int
deriving DecidableEq

/-- Model of EnhancedOBSController._move_to_target_safe (app.py lines
1253-1278): when the target path already holds a file, the destination is
switched to the timestamped conflict name; then safe_move_file runs; on
failure the original source path is handed back. -/
def move_to_target_safe (env : MoveEnv) (fs : FS) (now : Int)
    (tgt : RecordingTarget) (source : String) : (Bool × String) × FS :=
  let targetPath :=
    if (lookupFile fs tgt.fullPath).isSome then conflictPath tgt now
    else tgt.fullPath
  let r := safe_move_file env fs now source targetPath
  match r.1 with
  | .ok res => ((true, res), r.2)
  | _ => ((false, source), r.2)

/-- Environment of one _find_latest_recording_safe call: whether the
record-directory RPC raises, whether the directory exists, the three
stabilization snapshots, and the snapshot the fallback glob observes. -/
structure DiscoveryEnv where
  getDirExc : Bool
  dirExists : Bool
  s0 : List ScanEntry
  s1 : List ScanEntry
  s2 : List ScanEntry
  sF : List ScanEntry
deriving DecidableEq

/-- Model of EnhancedOBSController._find_latest_recording_safe (app.py
lines 1204-1251): any exception or a missing directory yields none; else
the stable scan; else the fallback recent-file scan. -/
def find_latest_recording_safe (env : DiscoveryEnv) (startTime : Int) :
    Option String :=
  if env.getDirExc then none
  else if env.dirExists = false then none
  else
    match find_stable_recording_file env.s0 env.s1 env.s2 startTime with
    | some p => some p
    | none => fallbackLatest env.sF startTime

/-- RPC fault environment of one stop_recording call. The virtual-camera
stop of step 3 is not modelled: the source swallows all its exceptions
and it has no effect on the returned value or the state. -/
structure StopEnv where
  stopRecordExc : Bool
  waitStopOk : Bool
  disc : DiscoveryEnv
  move : MoveEnv
deriving DecidableEq

/-- What stop_recording returns and leaves behind. -/
structure StopResult where
  ok : Bool
  msg : String
  ctrl : ControllerSt
  fs : FS
deriving DecidableEq

/-- Steps 7 and onward of stop_recording (app.py lines 1172-1196),
applied to the path and filesystem left by the relocation step: the final
existence check (absence gives state error), the double-check with
verify_file_complete (failure gives state error), and the success return,
which records the path, clears the target and goes back to connected. -/
def stopFinish (c : ControllerSt) (now : Int) (finalPath : String)
    (fs2 : FS) : StopResult :=
  match lookupFile fs2 finalPath with
  | none =>
    ⟨false, "Final file missing",
     { c with
       state := .error
       lastRecordingPath := some finalPath }, fs2⟩
  | some _ =>
    if (verify_file_complete fs2 now finalPath 100).1 = false then
      ⟨false, "File corrupted after move: " ++
         (verify_file_complete fs2 now finalPath 100).2,
       { c with
         state := .error
         lastRecordingPath := some finalPath }, fs2⟩
    else
      ⟨true, finalPath,
       { c with
         state := .connected
         lastRecordingPath := some finalPath
         recordingTarget := none }, fs2⟩

/-- Model of EnhancedOBSController.stop_recording (app.py lines
1107-1202). Control flow: not-recording guard; stop RPC (an exception
lands in the outer handler, state error); wait_for_recording_stop (a
false result gives state error); file discovery (none gives state
connected); integrity verification (failure gives state connected);
relocation when a target is set (a failed move keeps the original file
and path); then stopFinish runs the final checks and the success return. -/
def stop_recording (env : StopEnv) (c : ControllerSt) (fs : FS)
    (now : Int) : StopResult :=
  if c.state ≠ RecorderState.recording then
    ⟨false, "Not recording", c, fs⟩
  else if env.stopRecordExc then
    ⟨false, "stop_record exception", { c with state := .error }, fs⟩
  else if env.waitStopOk = false then
    ⟨false, "Recording stop verification failed", { c with state := .error }, fs⟩
  else
    match find_latest_recording_safe env.disc c.recordingStartTime with
    | none => ⟨false, "No recording file found", { c with state := .connected }, fs⟩
    | some recFile =>
      if (verify_file_complete fs now recFile 100).1 = false then
        ⟨false, "Recording corrupted: " ++ (verify_file_complete fs now recFile 100).2,
         { c with
           state := .connected
           lastRecordingPath := some recFile }, fs⟩
      else
        match c.recordingTarget with
        | some tgt =>
          stopFinish c now
            (if (move_to_target_safe env.move fs now tgt recFile).1.1 then
               (move_to_target_safe env.move fs now tgt recFile).1.2
             else recFile)
            (move_to_target_safe env.move fs now tgt recFile).2
        | none => stopFinish c now recFile fs

/-- Observable environment of one connection attempt (app.py lines
888-930): is the OBS process running, does launching it succeed, do the
WebSocket client construction and the version query succeed. -/
structure AttemptEnv where
  obsRunning : Bool
  launchOk : Bool
  wsOk : Bool
deriving DecidableEq

/-- What connect returns: the boolean result, the resulting state, and
how many probe-launch-connect attempt sequences actually ran. -/
structure ConnectResult where
  ok : Bool
  state : RecorderState
  probes : Nat
deriving DecidableEq

/-- The attempt loop of connect (app.py lines 886-944): a failed launch
continues to the next attempt or errors out on the last; otherwise a
WebSocket failure retries after a delay or errors out on the last; a
WebSocket success returns connected. -/
def connectAttempts : List AttemptEnv → Nat → ConnectResult
  | [], n => ⟨false, .error, n⟩
  | att :: rest, n =>
    if att.obsRunning = false ∧ att.launchOk = false then
      if rest.isEmpty then ⟨false, .error, n + 1⟩
      else connectAttempts rest (n + 1)
    else if att.wsOk then ⟨true, .connected, n + 1⟩
    else if rest.isEmpty then ⟨false, .error, n + 1⟩
    else connectAttempts rest (n + 1)

/-- Model of EnhancedOBSController.connect (app.py lines 877-944): any
state other than disconnected returns True at once, with no probe and no
state change; from disconnected the attempt loop runs (the source fixes
two attempts; the model takes the per-attempt environments as a list). -/
def connect (c : ControllerSt) (envs : List AttemptEnv) : ConnectResult :=
  if c.state ≠ RecorderState.disconnected then ⟨true, c.state, 0⟩
  else connectAttempts envs 0

/-- Model of EnhancedOBSController.disconnect (app.py lines 1304-1353):
every path, including the exception handler, ends in disconnected. -/
def disconnect (c : ControllerSt) : ControllerSt :=
  { c with state := .disconnected }

/-- One virtual-camera status poll: active, inactive, or a raised
exception. -/
inductive VcStatus
  | active
  | inactive
  | exc
deriving DecidableEq

/-- The polling loop of start_virtual_camera (app.py lines 991-1003):
up to the timeout, an active status ends the wait; inactive statuses and
swallowed exceptions keep polling. -/
def vcPoll : Nat → List VcStatus → Bool
  | 0, _ => false
  | _ + 1, [] => false
  | n + 1, s :: rest => if s = VcStatus.active then true else vcPoll n rest

/-- What start_virtual_camera returns: the boolean result, the resulting
state, and whether the StartVirtualCam command was issued. -/
structure VcResult where
  ok : Bool
  state : RecorderState
  startIssued : Bool
deriving DecidableEq

/-- Model of EnhancedOBSController.start_virtual_camera (app.py lines
974-1009): outside connected or virtual_cam_active it fails; otherwise
the start command is always issued (its exception is swallowed), the
status is polled for up to 20 seconds, and both the observed-active case
and the timeout case set virtual_cam_active and return True. -/
def start_virtual_camera (c : ControllerSt) (polls : List VcStatus) :
    VcResult :=
  if c.state ≠ RecorderState.connected ∧ c.state ≠ RecorderState.virtual_cam_active then
    ⟨false, c.state, false⟩
  else if vcPoll 20 polls then ⟨true, .virtual_cam_active, true⟩
  else ⟨true, .virtual_cam_active, true⟩

/-- Environment of one ensure_virtual_camera_active call. -/
structure EnsureEnv where
  hasClient : Bool
  statusExc : Bool
  initiallyActive : Bool
  startExc : Bool
  polls : List VcStatus
deriving DecidableEq

/-- The 10 second wait loop of ensure_virtual_camera_active: an active
poll returns True; an exception propagates to the outer handler (False);
running out of time returns False. -/
def ensurePoll : Nat → List VcStatus → Bool
  | 0, _ => false
  | _ + 1, [] => false
  | n + 1, s :: rest =>
    match s with
    | .active => true
    | .inactive => ensurePoll n rest
    | .exc => false

/-- Model of EnhancedOBSController.ensure_virtual_camera_active (app.py
lines 946-972), returning the boolean result paired with whether the
StartVirtualCam command was issued: no client fails; a raising status
query fails; an already-active camera returns True without issuing the
start command; otherwise the start command is issued and the wait loop
decides. -/
def ensure_virtual_camera_active (env : EnsureEnv) : Bool × Bool :=
  if env.hasClient = false then (false, false)
  else if env.statusExc then (false, false)
  else if env.initiallyActive then (true, false)
  else if env.startExc then (false, true)
  else (ensurePoll 10 env.polls, true)

/-- One status query during the stop wait: the recorder reports active,
reports inactive, or the query raises. -/
inductive StatusR
  | active
  | inactive
  | exc
deriving DecidableEq

/-- What wait_for_recording_stop returns: the boolean result, how many
status queries ran, and whether the 8 second minimum finalize sleep
happened. -/
structure WaitOutcome where
  result : Bool
  consumed : Nat
  sleptFinalize : Bool
deriving DecidableEq

/-- Phase 1 of wait_for_recording_stop (app.py lines 113-127): up to
timeout iterations; an inactive status breaks out; an exception from the
status query is swallowed; after an active or raising query, elapsed time
past the timeout returns False, else the loop sleeps one second. Each
schedule entry carries the query outcome and the seconds the query took;
a schedule that runs out behaves as raising queries of zero duration.
Returns the early False if any, and the number of queries run. -/
def waitPhase1 : Nat → List (StatusR × Nat) → Nat → Nat → Option Bool × Nat
  | 0, _, _, _ => (none, 0)
  | n + 1, sched, elapsed, timeout =>
    if (sched.headD (StatusR.exc, 0)).1 = StatusR.inactive then (none, 1)
    else if elapsed + (sched.headD (StatusR.exc, 0)).2 > timeout then
      (some false, 1)
    else
      ((waitPhase1 n sched.tail (elapsed + (sched.headD (StatusR.exc, 0)).2 + 1) timeout).1,
       (waitPhase1 n sched.tail (elapsed + (sched.headD (StatusR.exc, 0)).2 + 1) timeout).2 + 1)

/-- Model of FileIntegrityManager.wait_for_recording_stop (app.py lines
98-147): with no client, sleep the 8 second minimum finalize time and
return True; an exception escaping the stop-wait sequence also sleeps 8
seconds and returns True; otherwise phase 1 polls, and unless it returned
False the call sleeps the 8 second finalize time (phase 2), runs the
warn-only responsiveness check (phase 3) and returns True. -/
def wait_for_recording_stop (hasClient bodyExc : Bool) (timeout : Nat)
    (sched : List (StatusR × Nat)) : WaitOutcome :=
  if hasClient = false then ⟨true, 0, true⟩
  else if bodyExc then ⟨true, 0, true⟩
  else
    match waitPhase1 timeout sched 0 timeout with
    | (some false, k) => ⟨false, k, false⟩
    | (_, k) => ⟨true, k, true⟩

/-
Concrete scenario inputs used by the witnesses and counterexamples.
-/

/-- A finished 200000 byte recording: mtime 50 seconds, content id 7,
valid MP4 signature. -/
def srcFile : File := ⟨200000, 50, 7, true⟩

/-- A 300000 byte file already sitting at the caller target: older mtime,
distinct content id 3. -/
def oldFile : File := ⟨300000, 20, 3, true⟩

/-- A same-size copy whose metadata-preserving step failed, so its mtime
is the present instant: it fails the age check of verify_file_complete. -/
def badCopy : File := ⟨200000, 99, 9, true⟩

/-- A finished recording whose first bytes lack the MP4 ftyp signature. -/
def noSigFile : File := ⟨200000, 50, 11, false⟩

/-- The path the recorder wrote the session to. -/
def recPath : String := "obs/rec.mp4"

/-- The caller-specified save location: full path m1/session.mp4. -/
def tgtA : RecordingTarget := ⟨"m1", "session", ".mp4"⟩

/-- Filesystem with only the fresh recording. -/
def fs0 : FS := [(recPath, srcFile)]

/-- Filesystem with the fresh recording and a pre-existing file at the
caller target path. -/
def fsConflict : FS := [(recPath, srcFile), ("m1/session.mp4", oldFile)]

/-- Filesystem whose only recording lacks the MP4 signature. -/
def fsNoSig : FS := [(recPath, noSigFile)]

/-- What each stabilization pass observes when the recording is already
finished: one unchanged file. -/
def scanStable : List ScanEntry := [⟨recPath, 50, 200000⟩]

/-- Discovery environment where the stable scan finds the recording. -/
def discStable : DiscoveryEnv := ⟨false, true, scanStable, scanStable, scanStable, []⟩

/-- Discovery environment where the stable scan sees nothing but the
fallback glob sees the recording. -/
def discFallback : DiscoveryEnv := ⟨false, true, [], [], [], scanStable⟩

/-- Discovery environment where nothing at all is found. -/
def discNone : DiscoveryEnv := ⟨false, true, [], [], [], []⟩

/-- Fault-free move environment: copy2 produces a faithful copy. -/
def mvOk : MoveEnv := ⟨.creates srcFile, false, false⟩

/-- Move environment where shutil.copy2 raises. -/
def mvExc : MoveEnv := ⟨.exc, false, false⟩

/-- Move environment where the copy keeps the size but not the mtime, so
the final verification fails. -/
def mvBadCopy : MoveEnv := ⟨.creates badCopy, false, false⟩

/-- Fault-free move environment for the signature-less recording. -/
def mvOkNoSig : MoveEnv := ⟨.creates noSigFile, false, false⟩

/-- Controller in the recording state with the caller target set and a
session that started at time 40. -/
def ctrlRec : ControllerSt := ⟨.recording, some tgtA, none, 40⟩

/-- Stop environment for the fault-free happy path. -/
def stopHappy : StopEnv := ⟨false, true, discStable, mvOk⟩

/-- Stop environment where only the relocation fails (copy2 raises). -/
def stopMoveFail : StopEnv := ⟨false, true, discStable, mvExc⟩

/-- Stop environment where the stop RPC itself raises. -/
def stopRpcExc : StopEnv := ⟨true, true, discStable, mvOk⟩

/-- Stop environment where no recording file can be found. -/
def stopNoFile : StopEnv := ⟨false, true, discNone, mvOk⟩

/-- Stop environment where discovery succeeds only through the fallback
scan and the moved file carries no MP4 signature. -/
def stopFallback : StopEnv := ⟨false, true, discFallback, mvOkNoSig⟩

/-
Helper lemmas about the filesystem model and about path strings.
-/

/-- Lookup after a removal of a different path is unchanged. -/
theorem lookup_remove_ne (fs : FS) (p q : String) (h : q ≠ p) :
    lookupFile (removeFile fs p) q = lookupFile fs q := by
  induction fs with
  | nil => rfl
  | cons e rest ih =>
    obtain ⟨a, b⟩ := e
    simp only [removeFile, lookupFile]
    by_cases hap : a = p
    · subst hap
      rw [if_pos rfl, ih, if_neg (fun hh : a = q => h hh.symm)]
    · rw [if_neg hap]
      simp only [lookupFile]
      by_cases haq : a = q
      · rw [if_pos haq, if_pos haq]
      · rw [if_neg haq, if_neg haq, ih]

/-- Lookup of the removed path is none. -/
theorem lookup_remove_self (fs : FS) (p : String) :
    lookupFile (removeFile fs p) p = none := by
  induction fs with
  | nil => rfl
  | cons e rest ih =>
    obtain ⟨a, b⟩ := e
    by_cases hap : a = p <;> simp [removeFile, hap, lookupFile, ih]

/-- Lookup of a freshly written path yields the written file. -/
theorem lookup_set_self (fs : FS) (p : String) (f : File) :
    lookupFile (setFile fs p f) p = some f := by
  simp [setFile, lookupFile]

/-- Lookup after a write to a different path is unchanged. -/
theorem lookup_set_ne (fs : FS) (p q : String) (f : File) (h : q ≠ p) :
    lookupFile (setFile fs p f) q = lookupFile fs q := by
  simp only [setFile, lookupFile, if_neg (fun hh : p = q => h hh.symm)]
  exact lookup_remove_ne fs p q h

/-- verify_file_complete only looks at the entry of the verified path. -/
theorem verify_congr (fs1 fs2 : FS) (now : Int) (p : String) (k : Nat)
    (h : lookupFile fs1 p = lookupFile fs2 p) :
    verify_file_complete fs1 now p k = verify_file_complete fs2 now p k := by
  unfold verify_file_complete
  rw [h]

/-- Strings of different lengths differ. -/
theorem ne_of_length_ne (a b : String) (h : a.length ≠ b.length) : a ≠ b :=
  fun he => h (congrArg String.length he)

/-- A path never equals itself extended by the temp-copy suffix. -/
theorem ne_append_moving (t : String) : t ≠ t ++ ".moving" := by
  apply ne_of_length_ne
  have h7 : ".moving".length = 7 := by decide
  rw [String.length_append]
  omega

/-- A path never equals itself extended by the backup suffix. -/
theorem ne_append_backup (t ts : String) : t ≠ t ++ ".backup." ++ ts := by
  apply ne_of_length_ne
  have h8 : ".backup.".length = 8 := by decide
  rw [String.length_append, String.length_append]
  omega

/-- The backup name and the temp-copy name of one target differ. -/
theorem backup_ne_moving (t ts : String) :
    t ++ ".backup." ++ ts ≠ t ++ ".moving" := by
  apply ne_of_length_ne
  have h8 : ".backup.".length = 8 := by decide
  have h7 : ".moving".length = 7 := by decide
  rw [String.length_append, String.length_append, String.length_append]
  omega

/-- The caller target path differs from the timestamped conflict path. -/
theorem fullPath_ne_conflictPath (t : RecordingTarget) (now : Int) :
    t.fullPath ≠ conflictPath t now := by
  apply ne_of_length_ne
  have h1 : "_".length = 1 := by decide
  simp only [RecordingTarget.fullPath, conflictPath, String.length_append]
  omega

/-- The caller target path differs from the conflict temp-copy name. -/
theorem fullPath_ne_conflict_moving (t : RecordingTarget) (now : Int) :
    t.fullPath ≠ conflictPath t now ++ ".moving" := by
  apply ne_of_length_ne
  have h1 : "_".length = 1 := by decide
  have h7 : ".moving".length = 7 := by decide
  simp only [RecordingTarget.fullPath, conflictPath, String.length_append]
  omega

/-- The caller target path differs from the conflict backup name. -/
theorem fullPath_ne_conflict_backup (t : RecordingTarget) (now : Int) (ts : String) :
    t.fullPath ≠ conflictPath t now ++ ".backup." ++ ts := by
  apply ne_of_length_ne
  have h1 : "_".length = 1 := by decide
  have h8 : ".backup.".length = 8 := by decide
  simp only [RecordingTarget.fullPath, conflictPath, String.length_append]
  omega

/-- Claim C5: find_stable_recording_file is supposed to return a file
only when its size stopped changing across the stabilization passes; the
code instead re-adds a demoted candidate as a new file on the following
pass. Failing input: one file that grows by about 50 KB between each of
the three passes (sizes 200000, 250000, 300000 at the passes, session
start 95). The first conjunct shows the pass-1 demotion did empty the
stable set; the second shows pass 2 re-admitted the still-growing file
and the call returned it, with zero seconds elapsed since its last
growth, against the claimed passInterval times (passes - 1) dwell. -/
theorem C5_code_bug_eval :
    stablePass (candidateFilter [⟨"obs/rec.mp4", 100, 200000⟩] 95)
        (candidateFilter [⟨"obs/rec.mp4", 102, 250000⟩] 95) = [] ∧
    find_stable_recording_file
        [⟨"obs/rec.mp4", 100, 200000⟩]
        [⟨"obs/rec.mp4", 102, 250000⟩]
        [⟨"obs/rec.mp4", 104, 300000⟩] 95 = some "obs/rec.mp4" := by
  decide

/-- Claim C7, counterexample: connect invoked in the error state returns
True immediately with zero probe-launch-connect sequences run and the
state still error, even in an environment where a probe would succeed;
the claim says connect from Error re-probes the process and channel
before the controller can return to Connected. -/
theorem C7_counterexample :
    connect ⟨RecorderState.error, none, none, 0⟩
        [⟨true, true, true⟩, ⟨true, true, true⟩] =
      ⟨true, RecorderState.error, 0⟩ := by
  decide

/-- Claim C7, amended: connect runs the probe-launch-connect sequence
only from the disconnected state; called in any other state, including
error, it returns True at once with no probe and no state change, so
leaving Error requires disconnect (which always ends disconnected)
followed by connect; from disconnected, an attempt whose process probe or
launch succeeds and whose channel and version check succeed ends
connected after one probe sequence. -/
theorem C7_amended (c : ControllerSt) (envs : List AttemptEnv) :
    (c.state ≠ RecorderState.disconnected → connect c envs = ⟨true, c.state, 0⟩) ∧
    connect (disconnect c) envs = connectAttempts envs 0 ∧
    (∀ (a : AttemptEnv) (rest : List AttemptEnv), a.wsOk = true →
      (a.obsRunning = true ∨ a.launchOk = true) →
      connectAttempts (a :: rest) 0 = ⟨true, RecorderState.connected, 1⟩) := by
  refine ⟨?_, ?_, ?_⟩
  · intro h
    simp [connect, h]
  · simp [connect, disconnect]
  · intro a rest hws hrun
    rcases hrun with h | h <;> simp [connectAttempts, h, hws]

/-- Claim C7, witness: the no-probe early return evaluated in the error
state with an empty attempt environment. -/
theorem C7_witness :
    connect ⟨RecorderState.error, some tgtA, none, 0⟩ [] =
      ⟨true, RecorderState.error, 0⟩ :=
  (C7_amended ⟨RecorderState.error, some tgtA, none, 0⟩ []).1 (by decide)

/-- Claim C9, counterexample: start_virtual_camera called while the
virtual camera is already active (the first status poll reports active)
returns success, but with the StartVirtualCam command re-issued; the
claim says success is returned without re-issuing the start command. -/
theorem C9_counterexample :
    start_virtual_camera ⟨RecorderState.virtual_cam_active, none, none, 0⟩
        [VcStatus.active] =
      ⟨true, RecorderState.virtual_cam_active, true⟩ := by
  decide

/-- Claim C9, amended: start_virtual_camera called from connected or
virtual_cam_active always returns success ending in virtual_cam_active,
so the call is idempotent in result and state, but it issues the start
command on every call; the variant that skips the start command when the
camera is already active is ensure_virtual_camera_active. -/
theorem C9_amended (c : ControllerSt) (polls : List VcStatus) (env : EnsureEnv) :
    (c.state = RecorderState.connected ∨ c.state = RecorderState.virtual_cam_active →
      start_virtual_camera c polls = ⟨true, RecorderState.virtual_cam_active, true⟩) ∧
    (env.hasClient = true → env.statusExc = false → env.initiallyActive = true →
      ensure_virtual_camera_active env = (true, false)) := by
  constructor
  · intro h
    rcases h with h | h <;> simp [start_virtual_camera, h]
  · intro h1 h2 h3
    simp [ensure_virtual_camera_active, h1, h2, h3]

/-- Claim C9, witness: the amended statement evaluated with an active
camera on both entry points. -/
theorem C9_witness :
    start_virtual_camera ⟨RecorderState.connected, none, none, 0⟩ [] =
        ⟨true, RecorderState.virtual_cam_active, true⟩ ∧
    ensure_virtual_camera_active ⟨true, false, true, false, []⟩ = (true, false) :=
  ⟨(C9_amended ⟨RecorderState.connected, none, none, 0⟩ [] ⟨true, false, true, false, []⟩).1
      (Or.inl rfl),
   (C9_amended ⟨RecorderState.connected, none, none, 0⟩ [] ⟨true, false, true, false, []⟩).2
      rfl rfl rfl⟩

/-- Every status query consumed before an early False of the stop-wait
polling loop reported active or raised: the loop breaks out before the
timeout check as soon as a query reports inactive. -/
theorem waitPhase1_false_no_inactive (n : Nat) :
    ∀ (sched : List (StatusR × Nat)) (e t : Nat),
      (waitPhase1 n sched e t).1 = some false →
      ∀ j, j < (waitPhase1 n sched e t).2 →
        ((sched.drop j).headD (StatusR.exc, 0)).1 ≠ StatusR.inactive := by
  induction n with
  | zero =>
    intro sched e t h
    simp [waitPhase1] at h
  | succ n ih =>
    intro sched e t h j hj
    rw [waitPhase1] at h hj
    simp only [List.headD_eq_head?] at h hj ⊢
    by_cases h1 : (sched.head?.getD (StatusR.exc, 0)).1 = StatusR.inactive
    · simp [h1] at h
    · by_cases h2 : t < e + (sched.head?.getD (StatusR.exc, 0)).2
      · simp only [if_neg h1, if_pos h2] at hj
        have hj0 : j = 0 := Nat.lt_one_iff.mp hj
        subst hj0
        simpa using h1
      · simp only [if_neg h1, if_neg h2] at h hj
        cases j with
        | zero => simpa using h1
        | succ j2 =>
          have htail :
              ((sched.tail.drop j2).headD (StatusR.exc, 0)).1 ≠ StatusR.inactive :=
            ih sched.tail _ t h j2 (by omega)
          simp only [List.headD_eq_head?] at htail
          cases sched with
          | nil =>
            simp only [List.tail_nil, List.drop_nil] at htail ⊢
            exact htail
          | cons a rest => simpa using htail

/-- Claim C10, counterexample: a stop wait in which every status query
raises (11 queries of 2 seconds each against a 30 second timeout) returns
False, not True: a raising status query is swallowed inside the loop and
counts toward the timeout instead of triggering the sleep-8-and-return-
True fallback, and the False return did not involve the recorder ever
reporting active output. -/
theorem C10_counterexample :
    wait_for_recording_stop true false 30 (List.replicate 11 (StatusR.exc, 2)) =
      ⟨false, 11, false⟩ := by
  decide

/-- Claim C10, amended: wait_for_recording_stop returns False only when
the polling loop ran past its timeout without any consumed status query
reporting inactive (queries reporting active and queries raising both
count toward the timeout, and a raising query is swallowed, polling
continuing); the no-client path returns True after the 8 second minimum
finalize sleep, and an exception escaping the whole stop-wait sequence
likewise sleeps the minimum finalize time and returns True. -/
theorem C10_amended (hasClient bodyExc : Bool) (timeout : Nat)
    (sched : List (StatusR × Nat)) :
    (hasClient = false →
       wait_for_recording_stop hasClient bodyExc timeout sched = ⟨true, 0, true⟩) ∧
    (bodyExc = true →
       (wait_for_recording_stop hasClient bodyExc timeout sched).result = true ∧
       (wait_for_recording_stop hasClient bodyExc timeout sched).sleptFinalize = true) ∧
    ((wait_for_recording_stop hasClient bodyExc timeout sched).result = false →
       ∀ j, j < (wait_for_recording_stop hasClient bodyExc timeout sched).consumed →
         ((sched.drop j).headD (StatusR.exc, 0)).1 ≠ StatusR.inactive) := by
  refine ⟨?_, ?_, ?_⟩
  · intro h
    simp [wait_for_recording_stop, h]
  · intro h
    by_cases hc : hasClient = false
    · simp [wait_for_recording_stop, hc]
    · simp [wait_for_recording_stop, hc, h]
  · intro h j hj
    by_cases hc : hasClient = false
    · simp [wait_for_recording_stop, hc] at h
    · by_cases hb : bodyExc = true
      · simp [wait_for_recording_stop, hc, hb] at h
      · rcases hw : waitPhase1 timeout sched 0 timeout with ⟨ob, k⟩
        rcases ob with _ | b
        · simp [wait_for_recording_stop, hc, hb, hw] at h
        · cases b with
          | true => simp [wait_for_recording_stop, hc, hb, hw] at h
          | false =>
            simp only [wait_for_recording_stop, if_neg hc, if_neg hb, hw] at hj
            exact waitPhase1_false_no_inactive timeout sched 0 timeout
              (by rw [hw]) j (by rw [hw]; simpa using hj)

/-- Claim C10, witness: the no-client fallback evaluated concretely. -/
theorem C10_witness :
    wait_for_recording_stop false false 30 [] = ⟨true, 0, true⟩ :=
  (C10_amended false false 30 []).1 rfl

/-- Frame property of safe_move_file: a path distinct from the source,
the target, the temp-copy name and the backup name is untouched by the
whole relocation, whichever branch runs. -/
theorem safe_move_frame (env : MoveEnv) (fs : FS) (now : Int)
    (source target p : String)
    (hp1 : p ≠ source) (hp2 : p ≠ target)
    (hp3 : p ≠ target ++ ".moving")
    (hp4 : p ≠ target ++ ".backup." ++ toString now) :
    lookupFile (safe_move_file env fs now source target).2 p = lookupFile fs p := by
  unfold safe_move_file
  rcases hs : lookupFile fs source with _ | src
  · rfl
  · simp only []
    by_cases hv : (verify_file_complete fs now source 100).1 = false
    · simp [hv]
    · simp only [if_neg hv]
      rcases hc : env.copy with _ | _ | c
      · simp only []
        exact lookup_remove_ne _ _ _ hp3
      · rfl
      · simp only []
        by_cases hsz : src.size = c.size
        · simp only [if_neg (not_not_intro hsz)]
          rcases hex : lookupFile (setFile fs (target ++ ".moving") c) target with _ | oldF
          · simp only []
            by_cases hre : env.renameExc
            · simp only [if_pos hre]
              rw [lookup_remove_ne _ _ _ hp3, lookup_set_ne _ _ _ _ hp3]
            · simp only [if_neg hre]
              by_cases hv2 : (verify_file_complete
                  (setFile (removeFile (setFile fs (target ++ ".moving") c)
                    (target ++ ".moving")) target c) now target 100).1 = false
              · simp only [if_pos hv2]
                rw [lookup_set_ne _ _ _ _ hp2, lookup_remove_ne _ _ _ hp3,
                  lookup_set_ne _ _ _ _ hp3]
              · simp only [if_neg hv2]
                by_cases hrm : env.removeSourceExc
                · simp only [if_pos hrm]
                  rw [lookup_set_ne _ _ _ _ hp2, lookup_remove_ne _ _ _ hp3,
                    lookup_set_ne _ _ _ _ hp3]
                · simp only [if_neg hrm]
                  rw [lookup_remove_ne _ _ _ hp1, lookup_set_ne _ _ _ _ hp2,
                    lookup_remove_ne _ _ _ hp3, lookup_set_ne _ _ _ _ hp3]
          · simp only []
            by_cases hre : env.renameExc
            · simp only [if_pos hre]
              rw [lookup_remove_ne _ _ _ hp3, lookup_set_ne _ _ _ _ hp4,
                lookup_remove_ne _ _ _ hp2, lookup_set_ne _ _ _ _ hp3]
            · simp only [if_neg hre]
              by_cases hv2 : (verify_file_complete
                  (setFile (removeFile (setFile (removeFile
                      (setFile fs (target ++ ".moving") c) target)
                      (target ++ ".backup." ++ toString now) oldF)
                    (target ++ ".moving")) target c) now target 100).1 = false
              · simp only [if_pos hv2]
                rcases hbk : lookupFile (setFile (removeFile (setFile (removeFile
                      (setFile fs (target ++ ".moving") c) target)
                      (target ++ ".backup." ++ toString now) oldF)
                    (target ++ ".moving")) target c)
                    (target ++ ".backup." ++ toString now) with _ | bf
                · simp only []
                  rw [lookup_set_ne _ _ _ _ hp2, lookup_remove_ne _ _ _ hp3,
                    lookup_set_ne _ _ _ _ hp4, lookup_remove_ne _ _ _ hp2,
                    lookup_set_ne _ _ _ _ hp3]
                · simp only []
                  rw [lookup_set_ne _ _ _ _ hp2, lookup_remove_ne _ _ _ hp4,
                    lookup_set_ne _ _ _ _ hp2, lookup_remove_ne _ _ _ hp3,
                    lookup_set_ne _ _ _ _ hp4, lookup_remove_ne _ _ _ hp2,
                    lookup_set_ne _ _ _ _ hp3]
              · simp only [if_neg hv2]
                by_cases hrm : env.removeSourceExc
                · simp only [if_pos hrm]
                  rw [lookup_set_ne _ _ _ _ hp2, lookup_remove_ne _ _ _ hp3,
                    lookup_set_ne _ _ _ _ hp4, lookup_remove_ne _ _ _ hp2,
                    lookup_set_ne _ _ _ _ hp3]
                · simp only [if_neg hrm]
                  rw [lookup_remove_ne _ _ _ hp1, lookup_set_ne _ _ _ _ hp2,
                    lookup_remove_ne _ _ _ hp3, lookup_set_ne _ _ _ _ hp4,
                    lookup_remove_ne _ _ _ hp2, lookup_set_ne _ _ _ _ hp3]
        · simp only [if_pos hsz]
          rw [lookup_remove_ne _ _ _ hp3, lookup_set_ne _ _ _ _ hp3]

/-- Claim C3: when the target path already holds a file F, a
safe_move_file run that fails at a verification step leaves F at the
target: a failure at the verify-copy size comparison happens before F is
moved aside, so the target is untouched, and a failure at the final
verify_file_complete after F was moved aside to the backup name restores
the backup to the target before the failure is returned. -/
theorem C3_safe_move_restores (env : MoveEnv) (fs : FS) (now : Int)
    (source target : String) (F : File)
    (hF : lookupFile fs target = some F) :
    ((safe_move_file env fs now source target).1.isSizeMismatch = true →
      lookupFile (safe_move_file env fs now source target).2 target = some F) ∧
    ((safe_move_file env fs now source target).1.isFinalInvalid = true →
      lookupFile (safe_move_file env fs now source target).2 target = some F) := by
  have hmv : target ≠ target ++ ".moving" := ne_append_moving target
  have hbk1 : target ≠ target ++ ".backup." ++ toString now :=
    ne_append_backup target (toString now)
  have hbm : target ++ ".backup." ++ toString now ≠ target ++ ".moving" :=
    backup_ne_moving target (toString now)
  unfold safe_move_file
  rcases hs : lookupFile fs source with _ | src
  · simp [MoveOutcome.isSizeMismatch, MoveOutcome.isFinalInvalid]
  · by_cases hv : (verify_file_complete fs now source 100).1 = false
    · simp [hv, MoveOutcome.isSizeMismatch, MoveOutcome.isFinalInvalid]
    · simp only [if_neg hv]
      rcases hc : env.copy with _ | _ | c
      · simp [MoveOutcome.isSizeMismatch, MoveOutcome.isFinalInvalid]
      · simp [MoveOutcome.isSizeMismatch, MoveOutcome.isFinalInvalid]
      · by_cases hsz : src.size = c.size
        · simp only [if_neg (not_not_intro hsz)]
          have hex : lookupFile (setFile fs (target ++ ".moving") c) target = some F := by
            rw [lookup_set_ne _ _ _ _ hmv]
            exact hF
          rw [hex]
          simp only []
          by_cases hre : env.renameExc
          · simp [hre, MoveOutcome.isSizeMismatch, MoveOutcome.isFinalInvalid]
          · simp only [if_neg hre]
            have hb : lookupFile (setFile (removeFile (setFile (removeFile
                  (setFile fs (target ++ ".moving") c) target)
                  (target ++ ".backup." ++ toString now) F)
                (target ++ ".moving")) target c)
                (target ++ ".backup." ++ toString now) = some F := by
              rw [lookup_set_ne _ _ _ _ hbk1.symm, lookup_remove_ne _ _ _ hbm,
                lookup_set_self]
            by_cases hv2 : (verify_file_complete
                (setFile (removeFile (setFile (removeFile
                    (setFile fs (target ++ ".moving") c) target)
                    (target ++ ".backup." ++ toString now) F)
                  (target ++ ".moving")) target c) now target 100).1 = false
            · simp only [if_pos hv2]
              rw [hb]
              simp only [MoveOutcome.isFinalInvalid, MoveOutcome.isSizeMismatch]
              constructor
              · intro hcontra
                exact absurd hcontra (by simp)
              · intro _
                exact lookup_set_self _ _ _
            · simp [hv2, MoveOutcome.isSizeMismatch, MoveOutcome.isFinalInvalid]
        · simp only [if_pos hsz]
          simp only [MoveOutcome.isSizeMismatch, MoveOutcome.isFinalInvalid]
          constructor
          · intro _
            rw [lookup_remove_ne _ _ _ hmv, lookup_set_ne _ _ _ _ hmv]
            exact hF
          · intro hcontra
            exact absurd hcontra (by simp)

/-- Claim C3, witness: a copy that keeps the size but loses the mtime
fails the final verification after the pre-existing target file was moved
aside, and the target afterwards holds the pre-existing file again. -/
theorem C3_witness :
    lookupFile (safe_move_file mvBadCopy fsConflict 100 recPath "m1/session.mp4").2
      "m1/session.mp4" = some oldFile :=
  (C3_safe_move_restores mvBadCopy fsConflict 100 recPath "m1/session.mp4" oldFile
    (by decide)).2 (by decide)

/-- Claim C4: safe_move_file deletes the source only on the success
return, where the file at the final target path has already passed
verify_file_complete and still does on the returned filesystem; on every
failure return the source entry is exactly what it was before the call.
The path hypotheses say the source does not collide with the target, the
temp-copy name or the backup name, which is how stop_recording uses it
(the source lives in the recorder output directory, the target under the
caller folder). -/
theorem C4_source_preserved (env : MoveEnv) (fs : FS) (now : Int)
    (source target : String) (src : File)
    (hs : lookupFile fs source = some src)
    (h1 : source ≠ target)
    (h2 : source ≠ target ++ ".moving")
    (h3 : source ≠ target ++ ".backup." ++ toString now) :
    ((safe_move_file env fs now source target).1.isOk = false →
      lookupFile (safe_move_file env fs now source target).2 source = some src) ∧
    ((safe_move_file env fs now source target).1.isOk = true →
      (verify_file_complete (safe_move_file env fs now source target).2
        now target 100).1 = true) := by
  have hmv : target ≠ target ++ ".moving" := ne_append_moving target
  unfold safe_move_file
  rw [hs]
  simp only []
  by_cases hv : (verify_file_complete fs now source 100).1 = false
  · simp [hv, MoveOutcome.isOk, hs]
  · simp only [if_neg hv]
    rcases hc : env.copy with _ | _ | c
    · simp only [MoveOutcome.isOk]
      refine ⟨fun _ => ?_, fun hcontra => absurd hcontra (by simp)⟩
      rw [lookup_remove_ne _ _ _ h2]
      exact hs
    · simp [MoveOutcome.isOk, hs]
    · by_cases hsz : src.size = c.size
      · simp only [if_neg (not_not_intro hsz)]
        rcases hex : lookupFile (setFile fs (target ++ ".moving") c) target with _ | oldF
        · simp only []
          by_cases hre : env.renameExc
          · simp only [if_pos hre, MoveOutcome.isOk]
            refine ⟨fun _ => ?_, fun hcontra => absurd hcontra (by simp)⟩
            rw [lookup_remove_ne _ _ _ h2, lookup_set_ne _ _ _ _ h2]
            exact hs
          · simp only [if_neg hre]
            by_cases hv2 : (verify_file_complete
                (setFile (removeFile (setFile fs (target ++ ".moving") c)
                  (target ++ ".moving")) target c) now target 100).1 = false
            · simp only [if_pos hv2, MoveOutcome.isOk]
              refine ⟨fun _ => ?_, fun hcontra => absurd hcontra (by simp)⟩
              rw [lookup_set_ne _ _ _ _ h1, lookup_remove_ne _ _ _ h2,
                lookup_set_ne _ _ _ _ h2]
              exact hs
            · simp only [if_neg hv2, MoveOutcome.isOk]
              refine ⟨fun hcontra => absurd hcontra (by simp), fun _ => ?_⟩
              by_cases hrm : env.removeSourceExc
              · simp only [if_pos hrm]
                simpa using hv2
              · simp only [if_neg hrm]
                rw [verify_congr _ (setFile (removeFile (setFile fs
                      (target ++ ".moving") c) (target ++ ".moving")) target c)
                    now target 100 (lookup_remove_ne _ _ _ h1.symm)]
                simpa using hv2
        · simp only []
          by_cases hre : env.renameExc
          · simp only [if_pos hre, MoveOutcome.isOk]
            refine ⟨fun _ => ?_, fun hcontra => absurd hcontra (by simp)⟩
            rw [lookup_remove_ne _ _ _ h2, lookup_set_ne _ _ _ _ h3,
              lookup_remove_ne _ _ _ h1, lookup_set_ne _ _ _ _ h2]
            exact hs
          · simp only [if_neg hre]
            by_cases hv2 : (verify_file_complete
                (setFile (removeFile (setFile (removeFile
                    (setFile fs (target ++ ".moving") c) target)
                    (target ++ ".backup." ++ toString now) oldF)
                  (target ++ ".moving")) target c) now target 100).1 = false
            · simp only [if_pos hv2]
              rcases hbk : lookupFile (setFile (removeFile (setFile (removeFile
                    (setFile fs (target ++ ".moving") c) target)
                    (target ++ ".backup." ++ toString now) oldF)
                  (target ++ ".moving")) target c)
                  (target ++ ".backup." ++ toString now) with _ | bf
              · simp only [MoveOutcome.isOk]
                refine ⟨fun _ => ?_, fun hcontra => absurd hcontra (by simp)⟩
                rw [lookup_set_ne _ _ _ _ h1, lookup_remove_ne _ _ _ h2,
                  lookup_set_ne _ _ _ _ h3, lookup_remove_ne _ _ _ h1,
                  lookup_set_ne _ _ _ _ h2]
                exact hs
              · simp only [MoveOutcome.isOk]
                refine ⟨fun _ => ?_, fun hcontra => absurd hcontra (by simp)⟩
                rw [lookup_set_ne _ _ _ _ h1, lookup_remove_ne _ _ _ h3,
                  lookup_set_ne _ _ _ _ h1, lookup_remove_ne _ _ _ h2,
                  lookup_set_ne _ _ _ _ h3, lookup_remove_ne _ _ _ h1,
                  lookup_set_ne _ _ _ _ h2]
                exact hs
            · simp only [if_neg hv2, MoveOutcome.isOk]
              refine ⟨fun hcontra => absurd hcontra (by simp), fun _ => ?_⟩
              by_cases hrm : env.removeSourceExc
              · simp only [if_pos hrm]
                simpa using hv2
              · simp only [if_neg hrm]
                rw [verify_congr _ (setFile (removeFile (setFile (removeFile
                      (setFile fs (target ++ ".moving") c) target)
                      (target ++ ".backup." ++ toString now) oldF)
                    (target ++ ".moving")) target c)
                    now target 100 (lookup_remove_ne _ _ _ h1.symm)]
                simpa using hv2
      · simp only [if_pos hsz, MoveOutcome.isOk]
        refine ⟨fun _ => ?_, fun hcontra => absurd hcontra (by simp)⟩
        rw [lookup_remove_ne _ _ _ h2, lookup_set_ne _ _ _ _ h2]
        exact hs

/-- Claim C4, witness: a fault-free relocation of the recorded file to a
fresh target path ends with the target passing verify_file_complete on
the returned filesystem. -/
theorem C4_witness :
    (verify_file_complete (safe_move_file mvOk fs0 100 recPath "m1/session.mp4").2
      100 "m1/session.mp4" 100).1 = true :=
  (C4_source_preserved mvOk fs0 100 recPath "m1/session.mp4" srcFile
    (by decide) (by decide) (by decide) (by decide)).2 (by decide)

/-- The ok payload of safe_move_file is always the target path it was
called with. -/
theorem safe_move_ok_target (env : MoveEnv) (fs : FS) (now : Int)
    (source target q : String) :
    (safe_move_file env fs now source target).1 = MoveOutcome.ok q →
      q = target := by
  unfold safe_move_file
  rcases hs : lookupFile fs source with _ | src
  · intro h
    simp at h
  · by_cases hv : (verify_file_complete fs now source 100).1 = false
    · simp only [if_pos hv]
      intro h
      simp at h
    · simp only [if_neg hv]
      rcases hc : env.copy with _ | _ | c
      · intro h
        simp at h
      · intro h
        simp at h
      · by_cases hsz : src.size = c.size
        · simp only [if_neg (not_not_intro hsz)]
          rcases hex : lookupFile (setFile fs (target ++ ".moving") c) target
            with _ | oldF
          · by_cases hre : env.renameExc
            · simp only [if_pos hre]
              intro h
              simp at h
            · simp only [if_neg hre]
              by_cases hv2 : (verify_file_complete
                  (setFile (removeFile (setFile fs (target ++ ".moving") c)
                    (target ++ ".moving")) target c) now target 100).1 = false
              · simp only [if_pos hv2]
                intro h
                simp at h
              · simp only [if_neg hv2]
                intro h
                injection h with h
                exact h.symm
          · by_cases hre : env.renameExc
            · simp only [if_pos hre]
              intro h
              simp at h
            · simp only [if_neg hre]
              by_cases hv2 : (verify_file_complete
                  (setFile (removeFile (setFile (removeFile
                      (setFile fs (target ++ ".moving") c) target)
                      (target ++ ".backup." ++ toString now) oldF)
                    (target ++ ".moving")) target c) now target 100).1 = false
              · simp only [if_pos hv2]
                rcases hbk : lookupFile (setFile (removeFile (setFile (removeFile
                      (setFile fs (target ++ ".moving") c) target)
                      (target ++ ".backup." ++ toString now) oldF)
                    (target ++ ".moving")) target c)
                    (target ++ ".backup." ++ toString now) with _ | bf
                · intro h
                  simp at h
                · intro h
                  simp at h
              · simp only [if_neg hv2]
                intro h
                injection h with h
                exact h.symm
        · simp only [if_pos hsz]
          intro h
          simp at h

/-- Componentwise description of _move_to_target_safe in terms of the
safe_move_file call it wraps: the filesystem is whatever safe_move_file
left, a True first component returns the chosen destination (the
conflict name when the caller target pre-exists, the caller target
otherwise), and a False first component hands back the source path. -/
theorem move_to_target_spec (env : MoveEnv) (fs : FS) (now : Int)
    (tgt : RecordingTarget) (source : String) :
    (move_to_target_safe env fs now tgt source).2 =
      (safe_move_file env fs now source
        (if (lookupFile fs tgt.fullPath).isSome then conflictPath tgt now
         else tgt.fullPath)).2 ∧
    ((move_to_target_safe env fs now tgt source).1.1 = true →
      (move_to_target_safe env fs now tgt source).1.2 =
        (if (lookupFile fs tgt.fullPath).isSome then conflictPath tgt now
         else tgt.fullPath)) ∧
    ((move_to_target_safe env fs now tgt source).1.1 = false →
      (move_to_target_safe env fs now tgt source).1.2 = source) := by
  unfold move_to_target_safe
  dsimp only
  rcases hr : (safe_move_file env fs now source
      (if (lookupFile fs tgt.fullPath).isSome then conflictPath tgt now
       else tgt.fullPath)).1 with q | _ | e | _ | _ | ⟨a, b⟩ | _ | e
  · have hq := safe_move_ok_target env fs now source _ q hr
    subst hq
    simp
  all_goals simp

/-- Claim C2, counterexample: the caller target m1/session.mp4 pre-exists
(holding oldFile) when the relocation of the new recording runs; after a
fault-free move the target path still holds the old file, and the newly
recorded content sits at the timestamp-suffixed name m1/session_100.mp4:
the opposite assignment of the one the claim states, since
_move_to_target_safe renames the new file, not the pre-existing one. -/
theorem C2_counterexample :
    (move_to_target_safe mvOk fsConflict 100 tgtA recPath).1 =
        (true, "m1/session_100.mp4") ∧
    lookupFile (move_to_target_safe mvOk fsConflict 100 tgtA recPath).2
        "m1/session.mp4" = some oldFile ∧
    lookupFile (move_to_target_safe mvOk fsConflict 100 tgtA recPath).2
        "m1/session_100.mp4" = some srcFile ∧
    oldFile ≠ srcFile := by
  decide

/-- Claim C2, amended: when the target path already holds a file at
relocation time, the pre-existing file is left untouched at the target
path, and the new recording is delivered under the timestamp-suffixed
conflict name instead; the timestamped backup rename of safe_move_file
can only concern the chosen destination, never the caller target. -/
theorem C2_amended (env : MoveEnv) (fs : FS) (now : Int)
    (tgt : RecordingTarget) (source : String) (F : File)
    (hF : lookupFile fs tgt.fullPath = some F)
    (hsrc : source ≠ tgt.fullPath) :
    lookupFile (move_to_target_safe env fs now tgt source).2 tgt.fullPath = some F ∧
    ((move_to_target_safe env fs now tgt source).1.1 = true →
      (move_to_target_safe env fs now tgt source).1.2 = conflictPath tgt now) := by
  have hspec := move_to_target_spec env fs now tgt source
  have hcond : (if (lookupFile fs tgt.fullPath).isSome then conflictPath tgt now
      else tgt.fullPath) = conflictPath tgt now := by
    rw [hF]
    simp
  constructor
  · rw [hspec.1, hcond]
    rw [safe_move_frame env fs now source (conflictPath tgt now) tgt.fullPath
      hsrc.symm (fullPath_ne_conflictPath tgt now)
      (fullPath_ne_conflict_moving tgt now)
      (fullPath_ne_conflict_backup tgt now (toString now))]
    exact hF
  · intro h
    rw [hspec.2.1 h, hcond]

/-- Claim C2, witness: the amended statement evaluated on the concrete
conflict scenario, with the success path fully discharged. -/
theorem C2_witness :
    lookupFile (move_to_target_safe mvOk fsConflict 100 tgtA recPath).2
        tgtA.fullPath = some oldFile ∧
    (move_to_target_safe mvOk fsConflict 100 tgtA recPath).1.2 =
        conflictPath tgtA 100 :=
  ⟨(C2_amended mvOk fsConflict 100 tgtA recPath oldFile (by decide) (by decide)).1,
   (C2_amended mvOk fsConflict 100 tgtA recPath oldFile (by decide) (by decide)).2
     (by decide)⟩

/-- A success of the final stop_recording phase pins everything down:
the message is the final path, the filesystem is untouched by the phase,
the final path passed verify_file_complete, the state went back to
connected and the recording target was cleared. -/
theorem stopFinish_ok (c : ControllerSt) (now : Int) (finalPath : String)
    (fs2 : FS) :
    (stopFinish c now finalPath fs2).ok = true →
      (stopFinish c now finalPath fs2).msg = finalPath ∧
      (stopFinish c now finalPath fs2).fs = fs2 ∧
      (verify_file_complete fs2 now finalPath 100).1 = true ∧
      (stopFinish c now finalPath fs2).ctrl.state = RecorderState.connected ∧
      (stopFinish c now finalPath fs2).ctrl.recordingTarget = none := by
  unfold stopFinish
  rcases hl : lookupFile fs2 finalPath with _ | f
  · intro h
    simp at h
  · by_cases hv : (verify_file_complete fs2 now finalPath 100).1 = false
    · simp only [if_pos hv]
      intro h
      simp at h
    · simp only [if_neg hv]
      intro _
      exact ⟨by simp, by simp, by simpa using hv, by simp, by simp⟩

/-- A final phase whose re-verification fails (a missing final file also
fails verify_file_complete) returns failure with the state machine in
error. -/
theorem stopFinish_fail (c : ControllerSt) (now : Int) (finalPath : String)
    (fs2 : FS)
    (hv : (verify_file_complete fs2 now finalPath 100).1 = false) :
    (stopFinish c now finalPath fs2).ok = false ∧
    (stopFinish c now finalPath fs2).ctrl.state = RecorderState.error := by
  unfold stopFinish
  rcases hl : lookupFile fs2 finalPath with _ | f
  · exact ⟨by simp, by simp⟩
  · simp only [if_pos hv]
    exact ⟨by simp, by simp⟩

/-- Claim C1, counterexample: with a RecordingTarget set, a stop sequence
in which only the relocation fails (the copy raises) still returns
success, handing back the original un-relocated recording path, with
nothing at the caller-specified target path; the claim says a success
with a target set always names a file relocated to the caller-specified
target path. -/
theorem C1_counterexample :
    (stop_recording stopMoveFail ctrlRec fs0 100).ok = true ∧
    (stop_recording stopMoveFail ctrlRec fs0 100).msg = recPath ∧
    recPath ≠ tgtA.fullPath ∧
    lookupFile (stop_recording stopMoveFail ctrlRec fs0 100).fs tgtA.fullPath =
      none := by
  decide

/-- Claim C1, amended: when stop_recording returns success, the returned
path names a file that passes verify_file_complete on the filesystem the
call leaves behind, the state machine is back in connected and the
recording target is cleared; but the returned path is the caller target
only when the relocation itself succeeded — a failed relocation is
swallowed and the original, un-relocated recording path is returned as
success. -/
theorem C1_amended (env : StopEnv) (c : ControllerSt) (fs : FS) (now : Int) :
    (stop_recording env c fs now).ok = true →
      (verify_file_complete (stop_recording env c fs now).fs now
          (stop_recording env c fs now).msg 100).1 = true ∧
      (stop_recording env c fs now).ctrl.state = RecorderState.connected ∧
      (stop_recording env c fs now).ctrl.recordingTarget = none := by
  unfold stop_recording
  by_cases h1 : c.state ≠ RecorderState.recording
  · simp only [if_pos h1]
    intro h
    simp at h
  · simp only [if_neg h1]
    by_cases h2 : env.stopRecordExc
    · simp only [if_pos h2]
      intro h
      simp at h
    · simp only [if_neg h2]
      by_cases h3 : env.waitStopOk = false
      · simp only [if_pos h3]
        intro h
        simp at h
      · simp only [if_neg h3]
        rcases h4 : find_latest_recording_safe env.disc c.recordingStartTime
          with _ | p
        · intro h
          simp at h
        · by_cases h5 : (verify_file_complete fs now p 100).1 = false
          · simp only [if_pos h5]
            intro h
            simp at h
          · simp only [if_neg h5]
            rcases h6 : c.recordingTarget with _ | tgt
            · intro h
              have hf := stopFinish_ok c now p fs h
              refine ⟨?_, hf.2.2.2.1, hf.2.2.2.2⟩
              rw [hf.2.1, hf.1]
              exact hf.2.2.1
            · intro h
              have hf := stopFinish_ok c now
                (if (move_to_target_safe env.move fs now tgt p).1.1 then
                   (move_to_target_safe env.move fs now tgt p).1.2
                 else p)
                (move_to_target_safe env.move fs now tgt p).2 h
              refine ⟨?_, hf.2.2.2.1, hf.2.2.2.2⟩
              rw [hf.2.1, hf.1]
              exact hf.2.2.1

/-- Claim C1, witness: the amended statement evaluated on the fault-free
happy path, where the relocation succeeds and the returned path is the
caller target. -/
theorem C1_witness :
    (verify_file_complete (stop_recording stopHappy ctrlRec fs0 100).fs 100
        (stop_recording stopHappy ctrlRec fs0 100).msg 100).1 = true ∧
    (stop_recording stopHappy ctrlRec fs0 100).ctrl.state = RecorderState.connected ∧
    (stop_recording stopHappy ctrlRec fs0 100).ctrl.recordingTarget = none :=
  C1_amended stopHappy ctrlRec fs0 100 (by decide)

/-- Claim C8, counterexample: an exception from the stop RPC itself is
not treated as a benign not-recording failure — it lands in the outer
handler and transitions the state machine to error; and a failure of the
file-discovery step after the stop RPC does not transition to error — the
state goes back to connected. Both directions contradict the claim. -/
theorem C8_counterexample :
    (stop_recording stopRpcExc ctrlRec fs0 100).ctrl.state = RecorderState.error ∧
    (stop_recording stopRpcExc ctrlRec fs0 100).msg ≠ "Not recording" ∧
    (stop_recording stopNoFile ctrlRec fs0 100).ok = false ∧
    (stop_recording stopNoFile ctrlRec fs0 100).ctrl.state =
      RecorderState.connected := by
  decide

/-- Claim C8, amended: the not-recording guard (the only check before the
stop RPC) returns the benign failure with the state unchanged; an
exception from the stop RPC itself goes to error, not to the benign
return; a False stop-wait and a failed final re-verification go to error;
but a failed file discovery and a failed integrity verification return
failure with the state set to connected, not error. -/
theorem C8_amended (env : StopEnv) (c : ControllerSt) (fs : FS) (now : Int) :
    (c.state ≠ RecorderState.recording →
      stop_recording env c fs now = ⟨false, "Not recording", c, fs⟩) ∧
    (c.state = RecorderState.recording → env.stopRecordExc = true →
      (stop_recording env c fs now).ok = false ∧
      (stop_recording env c fs now).ctrl.state = RecorderState.error) ∧
    (c.state = RecorderState.recording → env.stopRecordExc = false →
      env.waitStopOk = false →
      (stop_recording env c fs now).ok = false ∧
      (stop_recording env c fs now).ctrl.state = RecorderState.error ∧
      (stop_recording env c fs now).msg = "Recording stop verification failed") ∧
    (c.state = RecorderState.recording → env.stopRecordExc = false →
      env.waitStopOk = true →
      find_latest_recording_safe env.disc c.recordingStartTime = none →
      (stop_recording env c fs now).ok = false ∧
      (stop_recording env c fs now).ctrl.state = RecorderState.connected) ∧
    (∀ p, c.state = RecorderState.recording → env.stopRecordExc = false →
      env.waitStopOk = true →
      find_latest_recording_safe env.disc c.recordingStartTime = some p →
      (verify_file_complete fs now p 100).1 = false →
      (stop_recording env c fs now).ok = false ∧
      (stop_recording env c fs now).ctrl.state = RecorderState.connected) ∧
    (∀ finalPath fs2,
      (verify_file_complete fs2 now finalPath 100).1 = false →
      (stopFinish c now finalPath fs2).ok = false ∧
      (stopFinish c now finalPath fs2).ctrl.state = RecorderState.error) := by
  refine ⟨?_, ?_, ?_, ?_, ?_, ?_⟩
  · intro h
    simp [stop_recording, h]
  · intro h1 h2
    simp [stop_recording, h1, h2]
  · intro h1 h2 h3
    simp [stop_recording, h1, h2, h3]
  · intro h1 h2 h3 h4
    simp [stop_recording, h1, h2, h3, h4]
  · intro p h1 h2 h3 h4 h5
    simp [stop_recording, h1, h2, h3, h4, h5]
  · intro finalPath fs2 hv
    exact stopFinish_fail c now finalPath fs2 hv

/-- Claim C8, witness: the amended statement evaluated on the concrete
stop-RPC exception scenario. -/
theorem C8_witness :
    (stop_recording stopRpcExc ctrlRec fs0 100).ok = false ∧
    (stop_recording stopRpcExc ctrlRec fs0 100).ctrl.state = RecorderState.error :=
  (C8_amended stopRpcExc ctrlRec fs0 100).2.1 (by decide) (by decide)

/-- Claim C6, counterexample: a stop sequence in which the stabilization
scan finds nothing selects the recording through the fallback recent-file
scan of _find_latest_recording_safe, and the file it relocates as success
lacks the MP4 ftyp signature — verify_file_complete only warns about the
signature; the claim says every relocated file passed both the multi-pass
stabilization and the content-signature verification. -/
theorem C6_counterexample :
    find_stable_recording_file discFallback.s0 discFallback.s1 discFallback.s2
        40 = none ∧
    (stop_recording stopFallback ctrlRec fsNoSig 100).ok = true ∧
    (stop_recording stopFallback ctrlRec fsNoSig 100).msg = tgtA.fullPath ∧
    lookupFile (stop_recording stopFallback ctrlRec fsNoSig 100).fs
        tgtA.fullPath = some noSigFile ∧
    noSigFile.ftyp = false := by
  decide

/-- Claim C6, amended: every file _find_latest_recording_safe selects
comes either from the stabilization scan or from the fallback
recent-file scan that bypasses stabilization; and the result of
verify_file_complete is independent of whether the file carries the MP4
ftyp signature, since the signature check only logs a warning. -/
theorem C6_amended (env : DiscoveryEnv) (t : Int) (p : String) :
    (find_latest_recording_safe env t = some p →
      find_stable_recording_file env.s0 env.s1 env.s2 t = some p ∨
        fallbackLatest env.sF t = some p) ∧
    (∀ (sz : Nat) (mt : Int) (d : Nat) (b1 b2 : Bool) (now : Int) (k : Nat)
        (q : String),
      verify_file_complete [(q, ⟨sz, mt, d, b1⟩)] now q k =
        verify_file_complete [(q, ⟨sz, mt, d, b2⟩)] now q k) := by
  constructor
  · intro h
    unfold find_latest_recording_safe at h
    by_cases h1 : env.getDirExc
    · simp [h1] at h
    · simp only [if_neg h1] at h
      by_cases h2 : env.dirExists = false
      · simp [h2] at h
      · simp only [if_neg h2] at h
        rcases h3 : find_stable_recording_file env.s0 env.s1 env.s2 t with _ | q
        · simp only [h3] at h
          exact Or.inr h
        · simp only [h3] at h
          exact Or.inl h
  · intro sz mt d b1 b2 now k q
    simp [verify_file_complete, lookupFile]

/-- Claim C6, witness: the amended statement evaluated on the fallback
scenario and on the signature-less file. -/
theorem C6_witness :
    (find_stable_recording_file discFallback.s0 discFallback.s1 discFallback.s2
        40 = some recPath ∨
      fallbackLatest discFallback.sF 40 = some recPath) ∧
    verify_file_complete [(recPath, ⟨200000, 50, 7, true⟩)] 100 recPath 100 =
      verify_file_complete [(recPath, ⟨200000, 50, 7, false⟩)] 100 recPath 100 :=
  ⟨(C6_amended discFallback 40 recPath).1 (by decide),
   (C6_amended discFallback 40 recPath).2 200000 50 7 true false 100 100 recPath⟩

end MeetingSense
